import Mathlib

/-
Shallow embedding of the request caching and pagination layer of
`video_finder/video_finder.py` (class `YoutubeAPI` and the response adapter
classes), together with theorems settling the specification claims.

Machine-level conventions of the embedding:
* Python dicts used as insertion-ordered mappings become association lists
  (`List (String × _)`); assignment conses a fresh binding in front and lookup
  takes the first match, which models dict overwrite semantics.
* Wall-clock instants (`datetime.now()`) become integers; `caching_delay`
  (a `timedelta`) becomes an integer `expires`, and the source comparison
  `datetime.now() - time < self._expires` becomes `now - time < expires`.
* The HTTP transport plus JSON parsing (`requests.get` followed by
  `response.json()`) is the external capability `net`; the payload carried by
  a parsed response is an abstract type `α`.
* Raised exceptions become `Except` / `Option` results.
-/

namespace VideoFinder

variable {α : Type}

/-- One element of `param_str_list` in `do_caching`: the f-string
`key ++ ":" ++ value` built from a parameter pair. -/
def paramStr (p : String × String) : String := p.1 ++ ":" ++ p.2

/-- The byte string fed to `hashlib.sha224` in `do_caching` (line 120):
`method + ','.join(param_str_list)`, where the parameter pairs are enumerated
in the mapping's insertion order (`params.items()`). -/
def hashInput (method : String) (params : List (String × String)) : String :=
  method ++ String.intercalate "," (params.map paramStr)

/-- `hashlib.sha224(to_hash).hexdigest()` (line 122). The digest itself is
computed by the external `hashlib` library, abstracted here as the function
`digest` applied to the serialized request. -/
def requestFingerprint (digest : String → String) (method : String)
    (params : List (String × String)) : String :=
  digest (hashInput method params)

/-- A parsed provider response. `error` holds `response['error']['message']`
when the body carries the `'error'` key (the indicator tested by
`_check_for_errors`), and is `none` otherwise; `payload` abstracts the rest of
the parsed body. -/
structure ApiResponse (α : Type) where
  error : Option String
  payload : α

/-- `self._cache`: `request_hash ↦ (timestamp, response_json)`. -/
abbrev Cache (α : Type) := List (String × Int × ApiResponse α)

/-- Lookup in the cache dict: first (most recently written) binding wins. -/
def cacheLookup (c : Cache α) (k : String) : Option (Int × ApiResponse α) :=
  match c with
  | [] => none
  | (k2, v) :: rest => if k2 = k then some v else cacheLookup rest k

/-- The mutable state of one `YoutubeAPI` instance: the credential
(`self._developer_key`), the ttl (`self._expires`), the in-memory cache
(`self._cache`) and the contents of the backing file `self._cache_file`. -/
structure YoutubeAPIState (α : Type) where
  developerKey : String
  expires : Int
  cache : Cache α
  cacheFile : Cache α

/-- The cache load in `YoutubeAPI.__init__` (lines 102-112): every persisted
entry is kept only when `datetime.now() - time < self._expires`. -/
def loadCache (expires now : Int) (file : Cache α) : Cache α :=
  List.filter (fun e => decide (now - e.2.1 < expires)) file

/-- `YoutubeAPI._check_for_errors` (lines 145-147): when the `'error'` key is
present the call raises `YoutubeAPIException(response)`, whose message is
`response['error']['message']`. -/
def checkForErrors (resp : ApiResponse α) : Except String (ApiResponse α) :=
  match resp.error with
  | some msg => Except.error msg
  | none => Except.ok resp

/-- `YoutubeAPI._request` (lines 149-163): performs the GET with the caller's
(already stringified) params plus the developer key appended under `'key'`,
parses the body and checks it for a reported error. -/
def rawRequest (net : String → List (String × String) → ApiResponse α)
    (developerKey : String) (method : String)
    (params : List (String × String)) : Except String (ApiResponse α) :=
  checkForErrors (net method (params ++ [("key", developerKey)]))

/-- Observable outcome of one pass through `do_caching`: the returned (or
raised) value, the instance state afterwards, whether the wrapped `_request`
was invoked, and the `request_hash` computed on entry. -/
structure CachedCallResult (α : Type) where
  result : Except String (ApiResponse α)
  state : YoutubeAPIState α
  networkCalled : Bool
  requestHash : String

/-- The cache-miss path of `do_caching` (lines 133-142): call the wrapped
`_request`; on an exception it propagates and the state is untouched; on
success the entry `(now, response)` is stored under the fingerprint and the
whole cache is rewritten to the backing file. -/
def doCachingMiss (digest : String → String)
    (net : String → List (String × String) → ApiResponse α)
    (st : YoutubeAPIState α) (now : Int) (method : String)
    (params : List (String × String)) : CachedCallResult α :=
  match rawRequest net st.developerKey method params with
  | Except.error e =>
      ⟨Except.error e, st, true, requestFingerprint digest method params⟩
  | Except.ok resp =>
      ⟨Except.ok resp,
       ⟨st.developerKey, st.expires,
        (requestFingerprint digest method params, now, resp) :: st.cache,
        (requestFingerprint digest method params, now, resp) :: st.cache⟩,
       true, requestFingerprint digest method params⟩

/-- `YoutubeAPI._cached_request.do_caching` (lines 115-143): fingerprint the
request, return the stored response on a fresh hit, otherwise fall through to
the network path. -/
def doCaching (digest : String → String)
    (net : String → List (String × String) → ApiResponse α)
    (st : YoutubeAPIState α) (now : Int) (method : String)
    (params : List (String × String)) : CachedCallResult α :=
  match cacheLookup st.cache (requestFingerprint digest method params) with
  | some (time, resp) =>
      if now - time < st.expires then
        ⟨Except.ok resp, st, false, requestFingerprint digest method params⟩
      else
        doCachingMiss digest net st now method params
  | none => doCachingMiss digest net st now method params

/-- Exceptions observable inside `search_all`: `apiError` is a
`YoutubeAPIException` (or transport failure) raised by a page fetch;
`keyError` is a Python `KeyError` raised by a missing response member. -/
inductive SearchError where
  | apiError (msg : String)
  | keyError (key : String)

/-- One parsed page as `search_all` reads it: `items` is `response['items']`
(`none` models the key being absent, so that reading it raises `KeyError`),
and likewise `nextPageToken` is `response['nextPageToken']`. -/
structure Page (α : Type) where
  items : Option (List α)
  nextPageToken : Option String

/-- The `while yt_response['items']:` loop of `search_all` (lines 313-321),
fuel-indexed (`none` = fuel exhausted; every claim instance supplies enough
fuel). The current response is `resp` and `videos` is the accumulator. Reading
a missing `'items'` raises an uncaught `KeyError` (the loop condition sits
outside the `try`). Inside the `try`, a missing `'nextPageToken'` — or a
`KeyError` escaping the nested fetch — is caught and breaks the loop; any
other exception from the fetch propagates. On success the loop continues with
the fetched page. The second component of the result counts the fetch calls
made by the loop body. -/
def searchAllLoop (fetch : Option String → Except SearchError (Page α)) :
    Nat → Page α → List α → Option (Except SearchError (List α × Nat))
  | 0, _, _ => none
  | fuel + 1, resp, videos =>
    match resp.items with
    | none => some (Except.error (SearchError.keyError "items"))
    | some items =>
      if items.isEmpty then some (Except.ok (videos, 0))
      else
        match resp.nextPageToken with
        | none => some (Except.ok (videos ++ items, 0))
        | some tok =>
          match fetch (some tok) with
          | Except.error (SearchError.keyError _) =>
              some (Except.ok (videos ++ items, 0))
          | Except.error e => some (Except.error e)
          | Except.ok page =>
              (searchAllLoop fetch fuel page (videos ++ items)).map
                (fun r => r.map (fun vn => (vn.1, vn.2 + 1)))

/-- `YoutubeAPI.search_all` (lines 281-325): the initial `self.search` call
with no page token (any exception it raises propagates), then the
accumulation loop. The count in the result includes the initial call. -/
def searchAll (fetch : Option String → Except SearchError (Page α))
    (fuel : Nat) : Option (Except SearchError (List α × Nat)) :=
  match fetch none with
  | Except.error e => some (Except.error e)
  | Except.ok resp =>
      (searchAllLoop fetch fuel resp []).map
        (fun r => r.map (fun vn => (vn.1, vn.2 + 1)))

/-- The batching loop shared by `channels_all` (lines 335-344) and
`videos_all` (lines 354-363). The source keeps cursors `start_idx` and
`end_idx = start_idx + 50` over the id tuple and loops while the slice
`ids[start_idx:end_idx]` is non-empty; here `rest = ids.drop start_idx`, the
current slice is `rest.take 50`, and advancing both cursors by 50 is
`rest.drop 50`. `acc` accumulates the fetched items (`response['items']`),
and `ws` records the successive windows, one per fetch call. -/
def batchGo (fetchBatch : List String → List α) (rest : List String)
    (acc : List α) (ws : List (List String)) :
    List α × List (List String) :=
  if h : rest.take 50 = [] then (acc, ws)
  else
    batchGo fetchBatch (rest.drop 50) (acc ++ fetchBatch (rest.take 50))
      (ws ++ [rest.take 50])
termination_by rest.length
decreasing_by
  have hne : rest ≠ [] := by
    intro hnil
    rw [hnil] at h
    exact h rfl
  have hpos : 0 < rest.length := List.length_pos.mpr hne
  simp only [List.length_drop]
  omega

/-- `YoutubeAPI.channels_all`: batch the channel ids in windows of
`max_results = 50`. -/
def channelsAll (fetchBatch : List String → List α)
    (channelIds : List String) : List α × List (List String) :=
  batchGo fetchBatch channelIds [] []

/-- `YoutubeAPI.videos_all`: batch the video ids in windows of
`max_results = 50`. -/
def videosAll (fetchBatch : List String → List α)
    (videoIds : List String) : List α × List (List String) :=
  batchGo fetchBatch videoIds [] []

/-- A parsed JSON value as the response adapter sees it: a string leaf or an
object of key/value members (the only shapes the claims exercise). -/
inductive RawVal where
  | str (s : String)
  | obj (members : List (String × RawVal))

/-- Dict member lookup `element[key]`; `none` models the raised `KeyError`. -/
def lookupMember : List (String × RawVal) → String → Option RawVal
  | [], _ => none
  | (k, v) :: rest, key => if k = key then some v else lookupMember rest key

/-- Subscripting a raw value: only objects support `element[key]`. -/
def objGet (v : RawVal) (key : String) : Option RawVal :=
  match v with
  | RawVal.str _ => none
  | RawVal.obj members => lookupMember members key

/-- `ResponseAndapter._get_value` (lines 373-379): follow the key path into
the nested response; `none` models the `KeyError` on a missing key. -/
def getValue : List String → RawVal → Option RawVal
  | [], _ => none
  | key :: rest, elem =>
    match objGet elem key with
    | none => none
    | some value => if rest = [] then some value else getValue rest value

/-- The per-class field map `ResponseAndapter.fields`: attribute name to key
path. -/
abbrev FieldsMap := List (String × List String)

/-- Lookup `self.fields[name]`. -/
def fieldsLookup : FieldsMap → String → Option (List String)
  | [], _ => none
  | (k, v) :: rest, key => if k = key then some v else fieldsLookup rest key

/-- Dict item assignment `fields[key] = path`: replace the existing binding in
place (insert at the end when absent). -/
def setField : FieldsMap → String → List String → FieldsMap
  | [], key, path => [(key, path)]
  | (k, v) :: rest, key, path =>
    if k = key then (key, path) :: rest else (k, v) :: setField rest key path

/-- `ResponseAndapter.__getattr__` (lines 381-387): resolve the attribute via
the CURRENT class-level field map, then walk the instance's raw item; `none`
models the `AttributeError` raised on any `KeyError`. -/
def responseGetattr (fields : FieldsMap) (raw : RawVal) (name : String) :
    Option RawVal :=
  match fieldsLookup fields name with
  | none => none
  | some path => getValue path raw

/-- The class-level literal `YoutubeVideo.fields` (lines 396-411). -/
def youtubeVideoFields : FieldsMap :=
  [("title", ["snippet", "title"]),
   ("description", ["snippet", "description"]),
   ("image_url", ["snippet", "thumbnails", "medium", "url"]),
   ("video_id", ["id", "videoId"]),
   ("published_at", ["snippet", "publishedAt"]),
   ("live_broadcast", ["snippet", "liveBroadcastContent"]),
   ("channel_id", ["snippet", "channelId"]),
   ("channel_title", ["snippet", "channelTitle"]),
   ("etag", ["etag"]),
   ("duration", ["contentDetails", "duration"]),
   ("definition", ["contentDetails", "definition"]),
   ("dimension", ["contentDetails", "demension"]),
   ("tags", ["snippet", "tags"])]

/-- Python `value == "literal"` for a raw value: true only for an equal
string leaf. -/
def rawEqStr (v : RawVal) (s : String) : Bool :=
  match v with
  | RawVal.str s2 => s2 = s
  | RawVal.obj _ => false

/-- `YoutubeVideo.__init__` (lines 413-417): when the raw item's `'kind'` is
`"youtube#video"`, the constructor assigns `self.fields['video_id'] = ['id']`,
which mutates the CLASS-level dict shared by every instance. The function
returns the class-level field map after construction; `none` models the
`KeyError` on a raw item with no `'kind'` member. -/
def youtubeVideoInit (classFields : FieldsMap) (raw : RawVal) :
    Option FieldsMap :=
  match objGet raw "kind" with
  | none => none
  | some kind =>
    if rawEqStr kind "youtube#video" then
      some (setField classFields "video_id" ["id"])
    else
      some classFields

/-- A transport stub whose parsed response never carries the error key. -/
def okNet : String → List (String × String) → ApiResponse Nat :=
  fun _ _ => ⟨none, 0⟩

/-- A transport stub whose parsed response always carries the error key. -/
def errNet : String → List (String × String) → ApiResponse Nat :=
  fun _ _ => ⟨some "quotaExceeded", 0⟩

/-- A transport stub answering every request with payload 42. -/
def c6Net : String → List (String × String) → ApiResponse Nat :=
  fun _ _ => ⟨none, 42⟩

/-- A client state with an empty cache. -/
def emptyState : YoutubeAPIState Nat := ⟨"devkey", 100, [], []⟩

/-- A client state whose cache holds the entry written at time 0 for the
fingerprint of `("search", [("q", "cats")])` under the identity digest. -/
def hitState : YoutubeAPIState Nat :=
  ⟨"devkey", 100, [("searchq:cats", 0, ⟨none, 5⟩)],
   [("searchq:cats", 0, ⟨none, 5⟩)]⟩

/-- A provider script with three pages: `i1` then `i2` (each with a
continuation token) and finally `i3` with no token. -/
def threePageFetch (i1 i2 i3 : List Nat) :
    Option String → Except SearchError (Page Nat)
  | none => Except.ok ⟨some i1, some "t1"⟩
  | some "t1" => Except.ok ⟨some i2, some "t2"⟩
  | some "t2" => Except.ok ⟨some i3, none⟩
  | some _ => Except.error (SearchError.apiError "unexpected pageToken")

/-- The provider of the C4 scenario: pages `[1,2,3]`, `[4,5,6]` and `[7,8,9]`,
the last one with items but no continuation token. -/
def c4Fetch : Option String → Except SearchError (Page Nat) :=
  threePageFetch [1, 2, 3] [4, 5, 6] [7, 8, 9]

/-- 125 ids for the batching-boundary scenario. -/
def c7Ids : List String := List.replicate 125 "id"

/-- A provider whose first page succeeds and whose second fetch raises an
upstream error. -/
def c8Fetch : Option String → Except SearchError (Page Nat)
  | some "t1" => Except.error (SearchError.apiError "backend error")
  | _ => Except.ok ⟨some [1], some "t1"⟩

/-- The first page returned by `c8Fetch`. -/
def c8Page : Page Nat := ⟨some [1], some "t1"⟩

/-- A page with no `'items'` member at all. -/
def c10Page : Page Nat := ⟨none, none⟩

/-- A provider answering every call with the item-less page. -/
def c10Fetch : Option String → Except SearchError (Page Nat) :=
  fun _ => Except.ok c10Page

/-- A raw item as `/search` returns it: its `'id'` member is an object
holding `'videoId'`. -/
def c9SearchItem : RawVal :=
  RawVal.obj [("kind", RawVal.str "youtube#searchResult"),
              ("etag", RawVal.str "tag1"),
              ("id", RawVal.obj [("kind", RawVal.str "youtube#video"),
                                 ("videoId", RawVal.str "abc123")])]

/-- A raw item as `/videos` returns it: kind `"youtube#video"` and a string
`'id'`. -/
def c9VideoItem : RawVal :=
  RawVal.obj [("kind", RawVal.str "youtube#video"),
              ("etag", RawVal.str "tag2"),
              ("id", RawVal.str "xyz789")]

lemma isEmpty_false_of_ne_nil {l : List α} (h : l ≠ []) : l.isEmpty = false := by
  cases l with
  | nil => exact absurd rfl h
  | cons a t => rfl

lemma doCachingMiss_networkCalled (digest : String → String)
    (net : String → List (String × String) → ApiResponse α)
    (st : YoutubeAPIState α) (now : Int) (m : String)
    (p : List (String × String)) :
    (doCachingMiss digest net st now m p).networkCalled = true := by
  unfold doCachingMiss
  cases rawRequest net st.developerKey m p <;> rfl

/-- C1, counterexample: the serialization that `do_caching` feeds to
`hashlib.sha224` enumerates the parameter pairs in insertion order, so the
same two key/value pairs supplied in the two possible insertion orders
produce different digest inputs (and hence different sha224 fingerprints
whenever the digest does not collide on them — here exhibited with the
identity digest). -/
theorem C1_counterexample_insertion_order :
    hashInput "search" [("part", "snippet"), ("order", "date")] ≠
      hashInput "search" [("order", "date"), ("part", "snippet")] ∧
    requestFingerprint (fun s => s) "search"
        [("part", "snippet"), ("order", "date")] ≠
      requestFingerprint (fun s => s) "search"
        [("order", "date"), ("part", "snippet")] := by
  constructor <;> decide

/-- C1 (amended): the fingerprint is deterministic in the serialized request:
for any digest function, operation name and parameter sequences whose
insertion-order serializations agree — in particular, identical mappings
enumerated in the same insertion order — the fingerprints are identical. -/
theorem C1_fingerprint_deterministic (digest : String → String) (m : String)
    (p1 p2 : List (String × String)) (h : hashInput m p1 = hashInput m p2) :
    requestFingerprint digest m p1 = requestFingerprint digest m p2 := by
  unfold requestFingerprint
  rw [h]

/-- C1 witness: the amended determinism applied at a concrete request. -/
theorem C1_fingerprint_deterministic_witness :
    hashInput "search" [("q", "cats")] = hashInput "search" [("q", "cats")] ∧
    requestFingerprint (fun s => s) "search" [("q", "cats")] =
      requestFingerprint (fun s => s) "search" [("q", "cats")] :=
  ⟨rfl, C1_fingerprint_deterministic (fun s => s) "search" _ _ rfl⟩

/-- C2: the fingerprint computed by `do_caching` is a function of the method
name and caller-supplied parameters only — the developer key is injected
later, inside `_request`. Two client states that differ only in their
developer key therefore compute the same `request_hash`, and on a fresh cache
hit both return the stored payload with no network call: they share cache
hits over identical caches. -/
theorem C2_credential_excluded_from_fingerprint (digest : String → String)
    (net : String → List (String × String) → ApiResponse α)
    (st : YoutubeAPIState α) (k2 : String) (now time : Int) (m : String)
    (p : List (String × String)) (resp : ApiResponse α)
    (hl : cacheLookup st.cache (requestFingerprint digest m p) =
      some (time, resp))
    (hfresh : now - time < st.expires) :
    doCaching digest net st now m p =
      ⟨Except.ok resp, st, false, requestFingerprint digest m p⟩ ∧
    doCaching digest net ⟨k2, st.expires, st.cache, st.cacheFile⟩ now m p =
      ⟨Except.ok resp, ⟨k2, st.expires, st.cache, st.cacheFile⟩, false,
       requestFingerprint digest m p⟩ := by
  refine ⟨?_, ?_⟩ <;> simp [doCaching, hl, hfresh]

/-- C2 witness: two concrete clients differing only in credential serve the
same fresh cache entry without touching the network. -/
theorem C2_credential_excluded_witness :
    cacheLookup hitState.cache
        (requestFingerprint (fun s => s) "search" [("q", "cats")]) =
      some (0, ⟨none, 5⟩) ∧
    (50 : Int) - 0 < hitState.expires ∧
    (doCaching (fun s => s) okNet hitState 50 "search" [("q", "cats")] =
      ⟨Except.ok ⟨none, 5⟩, hitState, false,
       requestFingerprint (fun s => s) "search" [("q", "cats")]⟩ ∧
     doCaching (fun s => s) okNet
        ⟨"other-key", hitState.expires, hitState.cache, hitState.cacheFile⟩
        50 "search" [("q", "cats")] =
      ⟨Except.ok ⟨none, 5⟩,
       ⟨"other-key", hitState.expires, hitState.cache, hitState.cacheFile⟩,
       false, requestFingerprint (fun s => s) "search" [("q", "cats")]⟩) :=
  ⟨rfl, by decide,
   C2_credential_excluded_from_fingerprint (fun s => s) okNet hitState
     "other-key" 50 0 "search" [("q", "cats")] ⟨none, 5⟩ rfl (by decide)⟩

/-- C3: when the parsed network response carries the provider's error
indicator, `do_caching` propagates the `YoutubeAPIException` carrying the
provider's message, the in-memory cache and the backing file are left exactly
as they were (the store on line 137 is never reached), and a subsequent
identical request performs the network call again. -/
theorem C3_error_response_not_cached (digest : String → String)
    (net : String → List (String × String) → ApiResponse α)
    (st : YoutubeAPIState α) (now now2 : Int) (m : String)
    (p : List (String × String)) (msg : String)
    (hmiss : cacheLookup st.cache (requestFingerprint digest m p) = none)
    (herr : (net m (p ++ [("key", st.developerKey)])).error = some msg) :
    doCaching digest net st now m p =
      ⟨Except.error msg, st, true, requestFingerprint digest m p⟩ ∧
    (doCaching digest net st now2 m p).networkCalled = true := by
  have hmain : ∀ t : Int, doCaching digest net st t m p =
      ⟨Except.error msg, st, true, requestFingerprint digest m p⟩ := by
    intro t
    simp [doCaching, hmiss, doCachingMiss, rawRequest, checkForErrors, herr]
  exact ⟨hmain now, by rw [hmain now2]⟩

/-- C3 witness: a quota error against an empty cache leaves the state
unchanged and the retry hits the network again. -/
theorem C3_error_response_not_cached_witness :
    cacheLookup emptyState.cache
        (requestFingerprint (fun s => s) "search" [("q", "cats")]) = none ∧
    (errNet "search"
        ([("q", "cats")] ++ [("key", emptyState.developerKey)])).error =
      some "quotaExceeded" ∧
    (doCaching (fun s => s) errNet emptyState 1 "search" [("q", "cats")] =
      ⟨Except.error "quotaExceeded", emptyState, true,
       requestFingerprint (fun s => s) "search" [("q", "cats")]⟩ ∧
     (doCaching (fun s => s) errNet emptyState 2 "search"
        [("q", "cats")]).networkCalled = true) :=
  ⟨rfl, rfl,
   C3_error_response_not_cached (fun s => s) errNet emptyState 1 2 "search"
     [("q", "cats")] "quotaExceeded" rfl rfl⟩

/-- C5: expiry is enforced by the comparison `now - time < expires` performed
inside the cached-request lookup at read time: whatever state the in-memory
cache is in (however its entries got there, including entries that passed the
construction-time load filter), an entry timestamped `tW` is served from the
cache at every read time strictly before `tW + expires` with no network call,
and at any read time from `tW + expires` on (in particular `tW + ttl + ε`)
it is not served — the network path runs instead. -/
theorem C5_expiry_checked_at_read_time (digest : String → String)
    (net : String → List (String × String) → ApiResponse α)
    (st : YoutubeAPIState α) (tW now1 now2 : Int) (m : String)
    (p : List (String × String)) (resp : ApiResponse α)
    (hl : cacheLookup st.cache (requestFingerprint digest m p) =
      some (tW, resp))
    (h1 : now1 - tW < st.expires) (h2 : st.expires ≤ now2 - tW) :
    doCaching digest net st now1 m p =
      ⟨Except.ok resp, st, false, requestFingerprint digest m p⟩ ∧
    (doCaching digest net st now2 m p).networkCalled = true := by
  constructor
  · simp [doCaching, hl, h1]
  · have hnot : ¬ (now2 - tW < st.expires) := not_lt.mpr h2
    simp [doCaching, hl, hnot, doCachingMiss_networkCalled]

/-- C5 witness: the entry written at time 0 with ttl 100 is served at time 50
and bypassed at time 150. -/
theorem C5_expiry_checked_at_read_time_witness :
    cacheLookup hitState.cache
        (requestFingerprint (fun s => s) "search" [("q", "cats")]) =
      some (0, ⟨none, 5⟩) ∧
    (50 : Int) - 0 < hitState.expires ∧
    hitState.expires ≤ (150 : Int) - 0 ∧
    (doCaching (fun s => s) okNet hitState 50 "search" [("q", "cats")] =
      ⟨Except.ok ⟨none, 5⟩, hitState, false,
       requestFingerprint (fun s => s) "search" [("q", "cats")]⟩ ∧
     (doCaching (fun s => s) okNet hitState 150 "search"
        [("q", "cats")]).networkCalled = true) :=
  ⟨rfl, by decide, by decide,
   C5_expiry_checked_at_read_time (fun s => s) okNet hitState 0 50 150
     "search" [("q", "cats")] ⟨none, 5⟩ rfl (by decide) (by decide)⟩

/-- C6: cache round trip. A cache miss at time `tW` whose network call
succeeds stores the payload under the request fingerprint (in memory and in
the backing file); an immediately following request with the same method and
parameters, at any time `now2` within the ttl, is answered with the identical
stored payload and performs no network call. -/
theorem C6_cache_round_trip (digest : String → String)
    (net : String → List (String × String) → ApiResponse α)
    (st : YoutubeAPIState α) (tW now2 : Int) (m : String)
    (p : List (String × String))
    (hmiss : cacheLookup st.cache (requestFingerprint digest m p) = none)
    (hok : (net m (p ++ [("key", st.developerKey)])).error = none)
    (hfresh : now2 - tW < st.expires) :
    doCaching digest net st tW m p =
      ⟨Except.ok (net m (p ++ [("key", st.developerKey)])),
       ⟨st.developerKey, st.expires,
        (requestFingerprint digest m p, tW,
         net m (p ++ [("key", st.developerKey)])) :: st.cache,
        (requestFingerprint digest m p, tW,
         net m (p ++ [("key", st.developerKey)])) :: st.cache⟩,
       true, requestFingerprint digest m p⟩ ∧
    doCaching digest net
      ⟨st.developerKey, st.expires,
       (requestFingerprint digest m p, tW,
        net m (p ++ [("key", st.developerKey)])) :: st.cache,
       (requestFingerprint digest m p, tW,
        net m (p ++ [("key", st.developerKey)])) :: st.cache⟩
      now2 m p =
      ⟨Except.ok (net m (p ++ [("key", st.developerKey)])),
       ⟨st.developerKey, st.expires,
        (requestFingerprint digest m p, tW,
         net m (p ++ [("key", st.developerKey)])) :: st.cache,
        (requestFingerprint digest m p, tW,
         net m (p ++ [("key", st.developerKey)])) :: st.cache⟩,
       false, requestFingerprint digest m p⟩ := by
  refine ⟨?_, ?_⟩ <;>
    simp [doCaching, doCachingMiss, rawRequest, checkForErrors, cacheLookup,
      hmiss, hok, hfresh]

/-- C6 witness: write at time 0, read back at time 1 with no second network
call. -/
theorem C6_cache_round_trip_witness :
    cacheLookup emptyState.cache
        (requestFingerprint (fun s => s) "videos" [("id", "abc")]) = none ∧
    (c6Net "videos"
        ([("id", "abc")] ++ [("key", emptyState.developerKey)])).error =
      none ∧
    (doCaching (fun s => s) c6Net emptyState 0 "videos" [("id", "abc")] =
      ⟨Except.ok (c6Net "videos"
          ([("id", "abc")] ++ [("key", emptyState.developerKey)])),
       ⟨emptyState.developerKey, emptyState.expires,
        (requestFingerprint (fun s => s) "videos" [("id", "abc")], 0,
         c6Net "videos"
           ([("id", "abc")] ++ [("key", emptyState.developerKey)])) ::
          emptyState.cache,
        (requestFingerprint (fun s => s) "videos" [("id", "abc")], 0,
         c6Net "videos"
           ([("id", "abc")] ++ [("key", emptyState.developerKey)])) ::
          emptyState.cache⟩,
       true, requestFingerprint (fun s => s) "videos" [("id", "abc")]⟩ ∧
     doCaching (fun s => s) c6Net
       ⟨emptyState.developerKey, emptyState.expires,
        (requestFingerprint (fun s => s) "videos" [("id", "abc")], 0,
         c6Net "videos"
           ([("id", "abc")] ++ [("key", emptyState.developerKey)])) ::
          emptyState.cache,
        (requestFingerprint (fun s => s) "videos" [("id", "abc")], 0,
         c6Net "videos"
           ([("id", "abc")] ++ [("key", emptyState.developerKey)])) ::
          emptyState.cache⟩
       1 "videos" [("id", "abc")] =
      ⟨Except.ok (c6Net "videos"
          ([("id", "abc")] ++ [("key", emptyState.developerKey)])),
       ⟨emptyState.developerKey, emptyState.expires,
        (requestFingerprint (fun s => s) "videos" [("id", "abc")], 0,
         c6Net "videos"
           ([("id", "abc")] ++ [("key", emptyState.developerKey)])) ::
          emptyState.cache,
        (requestFingerprint (fun s => s) "videos" [("id", "abc")], 0,
         c6Net "videos"
           ([("id", "abc")] ++ [("key", emptyState.developerKey)])) ::
          emptyState.cache⟩,
       false, requestFingerprint (fun s => s) "videos" [("id", "abc")]⟩) :=
  ⟨rfl, rfl,
   C6_cache_round_trip (fun s => s) c6Net emptyState 0 1 "videos"
     [("id", "abc")] rfl rfl (by decide)⟩

/-- C4, counterexample: with two pages of 3 items each and a third page that
has items `[7,8,9]` but no continuation token, `search_all` does make exactly
3 fetch calls, but it returns 9 aggregated items, not 6: the loop body
appends the current page's items before the missing-token `KeyError` breaks
the loop, so the third page's items are included. -/
theorem C4_counterexample_items_count :
    searchAll c4Fetch 5 =
      some (Except.ok ([1, 2, 3, 4, 5, 6, 7, 8, 9], 3)) ∧
    ¬ ([1, 2, 3, 4, 5, 6, 7, 8, 9] : List Nat).length = 6 := by
  refine ⟨rfl, by decide⟩

/-- C4 (amended): for a provider returning non-empty pages `i1`, `i2` (with
continuation tokens) and a final non-empty page `i3` without one,
`search_all` makes exactly 3 fetch calls and returns `i1 ++ i2 ++ i3` — the
first two pages' items followed by the third page's items, which are appended
before the missing continuation token stops the loop. -/
theorem C4_pagination_three_pages (i1 i2 i3 : List Nat) (fuel : Nat)
    (h1 : i1 ≠ []) (h2 : i2 ≠ []) (h3 : i3 ≠ []) :
    searchAll (threePageFetch i1 i2 i3) (fuel + 1 + 1 + 1) =
      some (Except.ok (i1 ++ i2 ++ i3, 3)) := by
  simp [searchAll, searchAllLoop, threePageFetch, Except.map,
    isEmpty_false_of_ne_nil h1, isEmpty_false_of_ne_nil h2,
    isEmpty_false_of_ne_nil h3]

/-- C4 witness: the amended pagination property at concrete pages of sizes
3, 3 and 1. -/
theorem C4_pagination_three_pages_witness :
    ([1, 2, 3] : List Nat) ≠ [] ∧ ([4, 5, 6] : List Nat) ≠ [] ∧
    ([7] : List Nat) ≠ [] ∧
    searchAll (threePageFetch [1, 2, 3] [4, 5, 6] [7]) (0 + 1 + 1 + 1) =
      some (Except.ok ([1, 2, 3] ++ [4, 5, 6] ++ [7], 3)) :=
  ⟨by decide, by decide, by decide,
   C4_pagination_three_pages [1, 2, 3] [4, 5, 6] [7] 0 (by decide)
     (by decide) (by decide)⟩

/-- C8: at any iteration of the `search_all` loop — whatever has been
accumulated so far — a page fetch that raises an upstream error
(`YoutubeAPIException`, not a `KeyError`) aborts the whole loop: the error is
propagated as the only result and the accumulated partial item list is
discarded (it does not occur in the result at all). -/
theorem C8_fetch_error_aborts_loop
    (fetch : Option String → Except SearchError (Page α)) (fuel : Nat)
    (resp : Page α) (videos items : List α) (tok msg : String)
    (hi : resp.items = some items) (hne : items ≠ [])
    (ht : resp.nextPageToken = some tok)
    (hf : fetch (some tok) = Except.error (SearchError.apiError msg)) :
    searchAllLoop fetch (fuel + 1) resp videos =
      some (Except.error (SearchError.apiError msg)) := by
  simp [searchAllLoop, hi, isEmpty_false_of_ne_nil hne, ht, hf]

/-- C8 witness: a failing second fetch aborts the loop even though the
accumulator already holds items. -/
theorem C8_fetch_error_aborts_loop_witness :
    c8Page.items = some [1] ∧ ([1] : List Nat) ≠ [] ∧
    c8Page.nextPageToken = some "t1" ∧
    c8Fetch (some "t1") = Except.error (SearchError.apiError "backend error") ∧
    searchAllLoop c8Fetch (4 + 1) c8Page [9] =
      some (Except.error (SearchError.apiError "backend error")) :=
  ⟨rfl, by decide, rfl, rfl,
   C8_fetch_error_aborts_loop c8Fetch 4 c8Page [9] [1] "t1" "backend error"
     rfl (by decide) rfl rfl⟩

/-- C10: `search_all` is total only when every page carries the `'items'`
key. The access `yt_response['items']` in the loop condition sits outside the
`try`/`except KeyError` handler, so any current page without `'items'` —
first or fetched later — makes the call fail with the uncaught key-lookup
error instead of returning a list. -/
theorem C10_missing_items_key_uncaught
    (fetch : Option String → Except SearchError (Page α)) (fuel : Nat)
    (resp : Page α) (videos : List α)
    (hi : resp.items = none) (hfirst : fetch none = Except.ok resp) :
    searchAllLoop fetch (fuel + 1) resp videos =
      some (Except.error (SearchError.keyError "items")) ∧
    searchAll fetch (fuel + 1) =
      some (Except.error (SearchError.keyError "items")) := by
  have hloop : ∀ vs : List α, searchAllLoop fetch (fuel + 1) resp vs =
      some (Except.error (SearchError.keyError "items")) := by
    intro vs
    simp [searchAllLoop, hi]
  exact ⟨hloop videos, by simp [searchAll, hfirst, hloop, Except.map]⟩

/-- C10 witness: a provider whose page lacks `'items'` makes `search_all`
fail with the key-lookup error. -/
theorem C10_missing_items_key_uncaught_witness :
    c10Page.items = none ∧ c10Fetch none = Except.ok c10Page ∧
    (searchAllLoop c10Fetch (3 + 1) c10Page [5] =
      some (Except.error (SearchError.keyError "items")) ∧
     searchAll c10Fetch (3 + 1) =
      some (Except.error (SearchError.keyError "items"))) :=
  ⟨rfl, rfl,
   C10_missing_items_key_uncaught c10Fetch 3 c10Page [5] rfl rfl⟩

lemma batchGo_stop (f : List String → List α) (rest : List String)
    (acc : List α) (ws : List (List String)) (h : rest.take 50 = []) :
    batchGo f rest acc ws = (acc, ws) := by
  rw [batchGo]
  simp [h]

lemma batchGo_step (f : List String → List α) (rest : List String)
    (acc : List α) (ws : List (List String)) (h : ¬ rest.take 50 = []) :
    batchGo f rest acc ws =
      batchGo f (rest.drop 50) (acc ++ f (rest.take 50))
        (ws ++ [rest.take 50]) := by
  conv_lhs => rw [batchGo]
  simp [h]

lemma batchGo_length_125 (f : List String → List α) (ids : List String)
    (h : ids.length = 125) :
    batchGo f ids [] [] =
      (f (ids.take 50) ++ f ((ids.drop 50).take 50) ++ f (ids.drop 100),
       [ids.take 50, (ids.drop 50).take 50, ids.drop 100]) := by
  have l1 : (ids.take 50).length = 50 := by
    rw [List.length_take, h]
    decide
  have e1 : ¬ ids.take 50 = [] := by
    intro hx
    rw [hx] at l1
    simp at l1
  have l2 : ((ids.drop 50).take 50).length = 50 := by
    rw [List.length_take, List.length_drop, h]
    decide
  have e2 : ¬ (ids.drop 50).take 50 = [] := by
    intro hx
    rw [hx] at l2
    simp at l2
  have d1 : (ids.drop 50).drop 50 = ids.drop 100 := by
    rw [List.drop_drop]
  have l3 : (ids.drop 100).length = 25 := by
    rw [List.length_drop, h]
  have t3 : (ids.drop 100).take 50 = ids.drop 100 :=
    List.take_of_length_le (by rw [l3]; decide)
  have e3 : ¬ (ids.drop 100).take 50 = [] := by
    rw [t3]
    intro hx
    rw [hx] at l3
    simp at l3
  have d2 : (ids.drop 100).drop 50 = [] :=
    List.drop_eq_nil_of_le (by rw [l3]; decide)
  rw [batchGo_step f ids [] [] e1]
  rw [batchGo_step f (ids.drop 50) _ _ e2]
  rw [d1]
  rw [batchGo_step f (ids.drop 100) _ _ e3]
  rw [d2, t3]
  rw [batchGo_stop f [] _ _ rfl]
  simp

/-- C7: on 125 ids, `channels_all` and `videos_all` both walk the id list in
the consecutive, non-overlapping windows `ids[0:50]`, `ids[50:100]` and
`ids[100:150]`, make exactly one batch call per window — 3 calls with window
sizes 50, 50 and 25 — stop when the next window is empty, and concatenate
the per-batch results in batch order. -/
theorem C7_batching_windows (fetchC fetchV : List String → List α)
    (ids : List String) (h : ids.length = 125) :
    channelsAll fetchC ids =
      (fetchC (ids.take 50) ++ fetchC ((ids.drop 50).take 50) ++
         fetchC (ids.drop 100),
       [ids.take 50, (ids.drop 50).take 50, ids.drop 100]) ∧
    videosAll fetchV ids =
      (fetchV (ids.take 50) ++ fetchV ((ids.drop 50).take 50) ++
         fetchV (ids.drop 100),
       [ids.take 50, (ids.drop 50).take 50, ids.drop 100]) ∧
    (ids.take 50).length = 50 ∧ ((ids.drop 50).take 50).length = 50 ∧
    (ids.drop 100).length = 25 := by
  refine ⟨batchGo_length_125 fetchC ids h, batchGo_length_125 fetchV ids h,
    ?_, ?_, ?_⟩
  · rw [List.length_take, h]
    decide
  · rw [List.length_take, List.length_drop, h]
    decide
  · rw [List.length_drop, h]

/-- C7 witness: the batching boundary at a concrete list of 125 ids, with the
identity batch fetch. -/
theorem C7_batching_windows_witness :
    c7Ids.length = 125 ∧
    (channelsAll (fun w => w) c7Ids =
      ((c7Ids.take 50) ++ ((c7Ids.drop 50).take 50) ++ (c7Ids.drop 100),
       [c7Ids.take 50, (c7Ids.drop 50).take 50, c7Ids.drop 100]) ∧
     videosAll (fun w => w) c7Ids =
      ((c7Ids.take 50) ++ ((c7Ids.drop 50).take 50) ++ (c7Ids.drop 100),
       [c7Ids.take 50, (c7Ids.drop 50).take 50, c7Ids.drop 100]) ∧
     (c7Ids.take 50).length = 50 ∧ ((c7Ids.drop 50).take 50).length = 50 ∧
     (c7Ids.drop 100).length = 25) :=
  ⟨by simp [c7Ids],
   C7_batching_windows (fun w => w) (fun w => w) c7Ids (by simp [c7Ids])⟩

/-- C9: the field map of the adapter classes is shared mutable class state.
Constructing a `YoutubeVideo` from a search item (kind is not
`"youtube#video"`) leaves the class map unchanged and such an instance
resolves `video_id` through `['id', 'videoId']`; constructing ONE
`YoutubeVideo` from a raw item of kind `"youtube#video"` rewrites the
class-level `'video_id'` path to `['id']`, after which the earlier
search-built instance resolves `video_id` through the mutated path — it now
yields the whole nested id object instead of the video id string. -/
theorem C9_class_level_fields_shared :
    youtubeVideoInit youtubeVideoFields c9SearchItem =
      some youtubeVideoFields ∧
    responseGetattr youtubeVideoFields c9SearchItem "video_id" =
      some (RawVal.str "abc123") ∧
    youtubeVideoInit youtubeVideoFields c9VideoItem =
      some (setField youtubeVideoFields "video_id" ["id"]) ∧
    fieldsLookup (setField youtubeVideoFields "video_id" ["id"]) "video_id" =
      some ["id"] ∧
    responseGetattr (setField youtubeVideoFields "video_id" ["id"])
        c9SearchItem "video_id" =
      some (RawVal.obj [("kind", RawVal.str "youtube#video"),
                        ("videoId", RawVal.str "abc123")]) :=
  ⟨rfl, rfl, rfl, rfl, rfl⟩

end VideoFinder
